import Mathlib

/-!
Verification development for the geolocator utility (src/main.rs).

The program resolves a geographic position by trying three sources in order
(GPS via a local command, WiFi fingerprinting via a remote service, IP-based
lookup), normalizing the winning floating-point pair into micro-degree i32
coordinates. The external effects (subprocess output, environment variables,
HTTP responses) are passed in as explicit data; floating-point values are
modelled as exact rationals extended with NaN and signed infinities.
-/

namespace Geolocator

/-- Model of a Rust `f64` value: NaN, a signed infinity (`true` = positive),
or a finite value modelled as an exact rational. Floating-point
representation error of arithmetic is outside the scope of this model. -/
inductive RustF64 where
  | nan : RustF64
  | inf : Bool → RustF64
  | finite : ℚ → RustF64
deriving DecidableEq

def I32_MIN : ℤ := -2147483648

def I32_MAX : ℤ := 2147483647

/-- Rounding mode of Rust `f64::round`: nearest integer, ties away from zero. -/
def roundAway (q : ℚ) : ℤ := if 0 ≤ q then Rat.floor (q + 1/2) else -(Rat.floor (-q + 1/2))

/-- Truncation toward zero, the base behavior of a Rust `as` float-to-int cast. -/
def ratTrunc (q : ℚ) : ℤ := if 0 ≤ q then Rat.floor q else -(Rat.floor (-q))

/-- Model of `x * 1_000_000.0` on the `RustF64` domain (exact on finite values). -/
def mulMillion : RustF64 → RustF64
  | .nan => .nan
  | .inf s => .inf s
  | .finite q => .finite (q * 1000000)

/-- Model of `f64::round` (ties away from zero; NaN and infinities unchanged). -/
def rustRound : RustF64 → RustF64
  | .nan => .nan
  | .inf s => .inf s
  | .finite q => .finite ((roundAway q : ℤ) : ℚ)

/-- Model of the Rust `as i32` cast on an `f64`: NaN casts to 0, infinities and
out-of-range values saturate at the i32 bounds, finite values truncate toward
zero (Rust reference float-to-int cast semantics). -/
def asI32 : RustF64 → ℤ
  | .nan => 0
  | .inf s => if s then I32_MAX else I32_MIN
  | .finite q => max I32_MIN (min I32_MAX (ratTrunc q))

/-- Embedding of `f64_to_i32_coordinates` (src/main.rs:73):
`((lat * 1_000_000.0).round() as i32, (lon * 1_000_000.0).round() as i32)`. -/
def f64_to_i32_coordinates (lat lon : RustF64) : ℤ × ℤ :=
  (asI32 (rustRound (mulMillion lat)), asI32 (rustRound (mulMillion lon)))

/-- Model of Rust `str::split(c)`: splits at every occurrence of the separator,
keeping empty fragments (so the result is always nonempty). -/
def splitOnChar (sep : Char) : List Char → List (List Char)
  | [] => [[]]
  | c :: rest =>
    match splitOnChar sep rest with
    | [] => if c = sep then [[], []] else [[c]]
    | g :: gs => if c = sep then [] :: g :: gs else (c :: g) :: gs

/-- Model of `slice::join(":")` on the BSSID fragments. -/
def intercalateColons : List (List Char) → List Char
  | [] => []
  | [s] => s
  | s :: rest => s ++ ':' :: intercalateColons rest

/-- Model of the Rust call `.replace("\\:", ":")`: every backslash-colon pair is
collapsed to a plain colon, scanning left to right without overlap. -/
def replaceEscapedColons : List Char → List Char
  | '\\' :: ':' :: rest => ':' :: replaceEscapedColons rest
  | c :: rest => c :: replaceEscapedColons rest
  | [] => []

/-- Model of Rust `i32::from_str` (used by `parse::<i32>()`): an optional sign
followed by at least one ASCII digit, rejecting values outside the i32 range. -/
def parseI32 (s : List Char) : Option ℤ :=
  let digitsVal : List Char → ℤ :=
    fun ds => ds.foldl (fun a c => 10 * a + ((c.toNat : ℤ) - 48)) 0
  let goodDigits : List Char → Prop := fun ds => ds ≠ [] ∧ ds.all Char.isDigit = true
  match s with
  | '-' :: rest =>
    if goodDigits rest ∧ I32_MIN ≤ -(digitsVal rest) then some (-(digitsVal rest)) else none
  | '+' :: rest =>
    if goodDigits rest ∧ digitsVal rest ≤ I32_MAX then some (digitsVal rest) else none
  | other =>
    if goodDigits other ∧ digitsVal other ≤ I32_MAX then some (digitsVal other) else none

/-- Model of i32 negation `-signal`: two's-complement wrapping at the minimum
value (the release-mode behavior), identity elsewhere negated. -/
def i32Neg (v : ℤ) : ℤ := if v = I32_MIN then v else -v

/-- The `WifiAccessPoint` struct (src/main.rs:21). -/
structure WifiAccessPoint where
  macAddress : String
  signalStrength : ℤ
deriving DecidableEq, Repr

/-- The colon-split tokens of one `nmcli` output line
(`line.split(':').collect()` in `get_geo_location`). -/
def wifiLineParts (line : String) : List (List Char) := splitOnChar ':' line.data

/-- The raw signal value of one line: the last token parsed as i32, defaulting
to 0 (`parts.last().unwrap_or(&"0")` then `parse::<i32>().unwrap_or(0)`). -/
def wifiLineSignalRaw (line : String) : ℤ :=
  (parseI32 (((wifiLineParts line).getLast?).getD ['0'])).getD 0

/-- The MAC address of one line: tokens 1 through last-1 (`&parts[1..len-1]`)
rejoined with ":", escaped colons collapsed, uppercased. -/
def wifiLineMac (line : String) : String :=
  String.mk ((replaceEscapedColons (intercalateColons
    (((wifiLineParts line).drop 1).take ((wifiLineParts line).length - 2)))).map Char.toUpper)

/-- Embedding of the per-line body of the scan loop in `get_geo_location`
(src/main.rs:149-163): a line with at least 3 colon-delimited tokens yields an
access point; shorter lines are skipped. -/
def parseWifiLine (line : String) : Option WifiAccessPoint :=
  if 3 ≤ (wifiLineParts line).length then
    some ⟨wifiLineMac line, i32Neg (wifiLineSignalRaw line)⟩
  else none

/-- The `GeoRequest` struct (src/main.rs:27). -/
structure GeoRequest where
  considerIp : Bool
  wifiAccessPoints : List WifiAccessPoint
deriving DecidableEq, Repr

/-- Observable outcome of one `get_geo_location` call: whether the `nmcli`
scan subprocess ran, whether an HTTP POST was issued (and with which request
body), and the returned value or error. -/
structure WifiOutcome where
  scanInvoked : Bool
  httpRequested : Bool
  request : Option GeoRequest
  result : Except String (RustF64 × RustF64)

/-- Embedding of `get_geo_location` (src/main.rs:137-190). The environment
(after the `dotenv` load), the lines of the scan output, and the HTTP service
are passed as explicit data. Reading `GEO_API` precedes the scan; the empty
filtered list aborts before any HTTP request. -/
def get_geo_location (env : String → Option String) (scanLines : List String)
    (http : GeoRequest → Except String (RustF64 × RustF64)) : WifiOutcome :=
  match env "GEO_API" with
  | none => ⟨false, false, none, .error "environment variable not found"⟩
  | some _ =>
    let wifi_list := scanLines.filterMap parseWifiLine
    if wifi_list.isEmpty then
      ⟨true, false, none, .error "No Wi-Fi networks found"⟩
    else
      let geo_request : GeoRequest := ⟨true, wifi_list⟩
      ⟨true, true, some geo_request, http geo_request⟩

/-- The `IpLocation` struct (src/main.rs:34): body of the IP service response. -/
structure IpLocation where
  loc : Option String
deriving DecidableEq, Repr

/-- The comma-split parts of the `loc` field (`loc.split(',').collect()`). -/
def ipLocParts (s : String) : List (List Char) := splitOnChar ',' s.data

/-- Embedding of `get_ip_location` (src/main.rs:107-135). The HTTP status, the
decoded body (an `Except` since `response.json()` may itself fail), and the
`f64` string parser are passed as explicit data. The source's length-2 check
on `loc_parts` followed by indexing parts 0 and 1 is rendered as a match on
the two-element list shape, which is equivalent. -/
def get_ip_location (parseF64 : String → Option RustF64) (status_success : Bool)
    (body : Except String IpLocation) : Except String (RustF64 × RustF64) :=
  if status_success then
    match body with
    | .error e => .error e
    | .ok ip_info =>
      match ip_info.loc with
      | none => .error "Failed to get location via IP."
      | some loc =>
        match ipLocParts loc with
        | [p0, p1] =>
          match parseF64 (String.mk p0) with
          | none => .error "Failed to parse latitude"
          | some lat =>
            match parseF64 (String.mk p1) with
            | none => .error "Failed to parse longitude"
            | some lon => .ok (lat, lon)
        | _ => .error "Failed to get location via IP."
  else .error "Failed to get location via IP."

/-- The `Location` struct (src/main.rs:40). -/
structure Location where
  coordinates : ℤ × ℤ
deriving DecidableEq, Repr

/-- Observable outcome of one `Location::get_location` call: the result,
which fallback adapters were invoked, and how many informational fallback
messages were printed (the `println!` calls in the two fallback branches). -/
structure ResolveOutcome where
  result : Except String Location
  wifiCalled : Bool
  ipCalled : Bool
  fallbackMessages : ℕ

/-- Embedding of `Location::get_location` (src/main.rs:47-70): an if-let chain
trying GPS, then the WiFi adapter (`get_geo_location`), then the IP adapter
(`get_ip_location`). Each adapter is modelled by the value it returns when
invoked. A fallback message is printed inside each of the two later success
branches (and nowhere else). -/
def get_location (gps wifi ip : Except String (RustF64 × RustF64)) : ResolveOutcome :=
  match gps with
  | .ok (lat, lon) => ⟨.ok ⟨f64_to_i32_coordinates lat lon⟩, false, false, 0⟩
  | .error _ =>
    match wifi with
    | .ok (lat, lon) => ⟨.ok ⟨f64_to_i32_coordinates lat lon⟩, true, false, 1⟩
    | .error _ =>
      match ip with
      | .ok (lat, lon) => ⟨.ok ⟨f64_to_i32_coordinates lat lon⟩, true, true, 1⟩
      | .error _ => ⟨.error "Failed to get location", true, true, 0⟩

/-- Whether an adapter result is a success. -/
def exceptOk : Except String (RustF64 × RustF64) → Bool
  | .ok _ => true
  | .error _ => false

/-- Concrete parse function used to exercise the IP adapter on the input
"1,2": it parses "1" and "2" and rejects everything else. -/
def sampleParseF64 : String → Option RustF64 :=
  fun s => if s = "1" then some (.finite 1) else if s = "2" then some (.finite 2) else none

/-! ### Helper lemmas -/

theorem ratFloor_eq_floor (q : ℚ) : Rat.floor q = ⌊q⌋ :=
  le_antisymm (Int.le_floor.mpr (Rat.le_floor.mp le_rfl)) (Rat.le_floor.mpr (Int.floor_le q))

theorem roundAway_eq (q : ℚ) :
    roundAway q = if 0 ≤ q then ⌊q + 1/2⌋ else -⌊-q + 1/2⌋ := by
  simp only [roundAway, ratFloor_eq_floor]

theorem ratTrunc_intCast (n : ℤ) : ratTrunc (n : ℚ) = n := by
  simp only [ratTrunc, ratFloor_eq_floor]
  split
  · exact Int.floor_intCast n
  · rw [← Int.cast_neg, Int.floor_intCast]
    exact neg_neg n

theorem roundAway_bounds (q : ℚ) (n : ℤ) (h : |q| ≤ (n : ℚ)) :
    -n ≤ roundAway q ∧ roundAway q ≤ n := by
  obtain ⟨h1, h2⟩ := abs_le.mp h
  have hn : (0:ℤ) ≤ n := by exact_mod_cast le_trans (abs_nonneg q) h
  rw [roundAway_eq]
  rcases le_or_lt 0 q with hq | hq
  · rw [if_pos hq]
    have lb : (0:ℤ) ≤ ⌊q + 1/2⌋ := Int.le_floor.mpr (by push_cast; linarith)
    have ub : ⌊q + 1/2⌋ < n + 1 := by
      rw [Int.floor_lt]
      push_cast
      linarith
    omega
  · rw [if_neg (not_le.mpr hq)]
    have lb : (0:ℤ) ≤ ⌊-q + 1/2⌋ := Int.le_floor.mpr (by push_cast; linarith)
    have ub : ⌊-q + 1/2⌋ < n + 1 := by
      rw [Int.floor_lt]
      push_cast
      linarith
    omega

theorem asI32_finite_int (k : ℤ) (h1 : I32_MIN ≤ k) (h2 : k ≤ I32_MAX) :
    asI32 (.finite (k : ℚ)) = k := by
  show max I32_MIN (min I32_MAX (ratTrunc (k : ℚ))) = k
  rw [ratTrunc_intCast, min_eq_right h2, max_eq_right h1]

theorem asI32_range (v : RustF64) : I32_MIN ≤ asI32 v ∧ asI32 v ≤ I32_MAX := by
  cases v with
  | nan => exact ⟨by decide, by decide⟩
  | inf s => cases s <;> exact ⟨by decide, by decide⟩
  | finite q => exact ⟨le_max_left _ _, max_le (by decide) (min_le_left _ _)⟩

/-! ### Claim theorems -/

/-- C1: the resolver invokes the adapters strictly in the order GPS, WiFi, IP,
stopping at the first success: a GPS success short-circuits both later
adapters, a WiFi success after a GPS failure short-circuits the IP adapter,
and the returned coordinates equal the normalizer applied to the pair produced
by the first succeeding adapter. -/
theorem C1_resolver_order (gps wifi ip : Except String (RustF64 × RustF64)) :
    ((∃ p, gps = .ok p) →
      (get_location gps wifi ip).wifiCalled = false ∧
        (get_location gps wifi ip).ipCalled = false) ∧
    ((∃ e, gps = .error e) → (∃ p, wifi = .ok p) →
      (get_location gps wifi ip).ipCalled = false) ∧
    (∀ la lo, gps = .ok (la, lo) →
      (get_location gps wifi ip).result = .ok ⟨f64_to_i32_coordinates la lo⟩) ∧
    (∀ e la lo, gps = .error e → wifi = .ok (la, lo) →
      (get_location gps wifi ip).result = .ok ⟨f64_to_i32_coordinates la lo⟩) ∧
    (∀ e1 e2 la lo, gps = .error e1 → wifi = .error e2 → ip = .ok (la, lo) →
      (get_location gps wifi ip).result = .ok ⟨f64_to_i32_coordinates la lo⟩) := by
  refine ⟨?_, ?_, ?_, ?_, ?_⟩
  · rintro ⟨⟨la, lo⟩, rfl⟩
    exact ⟨rfl, rfl⟩
  · rintro ⟨e, rfl⟩ ⟨⟨la, lo⟩, rfl⟩
    rfl
  · rintro la lo rfl
    rfl
  · rintro e la lo rfl rfl
    rfl
  · rintro e1 e2 la lo rfl rfl rfl
    rfl

/-- Witness for C1 at concrete adapter outcomes. -/
theorem C1_resolver_order_witness :
    (get_location (.ok (.finite 1, .finite 2)) (.error "w") (.error "i")).wifiCalled = false ∧
    (get_location (.error "g") (.ok (.finite 1, .finite 2)) (.error "i")).ipCalled = false ∧
    (get_location (.error "g") (.error "w") (.ok (.finite 1, .finite 2))).result
      = .ok ⟨f64_to_i32_coordinates (.finite 1) (.finite 2)⟩ :=
  ⟨((C1_resolver_order _ _ _).1 ⟨_, rfl⟩).1,
    (C1_resolver_order _ _ _).2.1 ⟨_, rfl⟩ ⟨_, rfl⟩,
    (C1_resolver_order _ _ _).2.2.2.2 "g" "w" _ _ rfl rfl rfl⟩

/-- C2: when all three adapters fail the resolver returns the single aggregate
error "Failed to get location", with no partial result, and independently of
the three individual error messages (no causes are chained into it). -/
theorem C2_total_failure (e1 e2 e3 : String) :
    get_location (.error e1) (.error e2) (.error e3)
      = ⟨.error "Failed to get location", true, true, 0⟩ := rfl

/-- C3: on finite in-range inputs the normalizer returns exactly
(round(lat*1e6), round(lon*1e6)) as in-range signed 32-bit integers, where
round is nearest-integer with ties away from zero (so 2.5 rounds to 3 and
-2.5 rounds to -3). Finite f64 values are modelled as exact rationals. -/
theorem C3_normalizer_exact (la lo : ℚ) (hla : |la| ≤ 90) (hlo : |lo| ≤ 180) :
    f64_to_i32_coordinates (.finite la) (.finite lo)
      = (roundAway (la * 1000000), roundAway (lo * 1000000)) ∧
    I32_MIN ≤ roundAway (la * 1000000) ∧ roundAway (la * 1000000) ≤ I32_MAX ∧
    I32_MIN ≤ roundAway (lo * 1000000) ∧ roundAway (lo * 1000000) ≤ I32_MAX ∧
    roundAway (5/2) = 3 ∧ roundAway (-5/2) = -3 := by
  have bla : |la * 1000000| ≤ ((180000000 : ℤ) : ℚ) := by
    rw [abs_mul, abs_of_nonneg (by norm_num : (0:ℚ) ≤ 1000000)]
    push_cast
    linarith
  have blo : |lo * 1000000| ≤ ((180000000 : ℤ) : ℚ) := by
    rw [abs_mul, abs_of_nonneg (by norm_num : (0:ℚ) ≤ 1000000)]
    push_cast
    linarith
  obtain ⟨l1, l2⟩ := roundAway_bounds (la * 1000000) 180000000 bla
  obtain ⟨m1, m2⟩ := roundAway_bounds (lo * 1000000) 180000000 blo
  have hmin : I32_MIN ≤ (-180000000 : ℤ) := by decide
  have hmax : (180000000 : ℤ) ≤ I32_MAX := by decide
  refine ⟨?_, le_trans hmin l1, le_trans l2 hmax, le_trans hmin m1, le_trans m2 hmax,
    by rw [roundAway_eq]; norm_num, by rw [roundAway_eq]; norm_num⟩
  show (asI32 (rustRound (mulMillion (.finite la))),
        asI32 (rustRound (mulMillion (.finite lo)))) = _
  simp only [mulMillion, rustRound]
  rw [asI32_finite_int _ (le_trans hmin l1) (le_trans l2 hmax),
      asI32_finite_int _ (le_trans hmin m1) (le_trans m2 hmax)]

/-- Witness for C3 at lat 45.5 and lon 90.5. -/
theorem C3_normalizer_exact_witness :
    f64_to_i32_coordinates (.finite (91/2)) (.finite (181/2)) = (45500000, 90500000) := by
  rw [(C3_normalizer_exact (91/2) (181/2)
      (by rw [abs_le]; constructor <;> norm_num)
      (by rw [abs_le]; constructor <;> norm_num)).1]
  rw [roundAway_eq, roundAway_eq]
  norm_num

/-- C10: the coordinate normalizer is total on the whole f64 domain: every
output component lies in the i32 range, a NaN coordinate maps to 0, and an
infinite coordinate or one whose scaled-and-rounded value lies outside the
i32 range saturates to the corresponding i32 bound. -/
theorem C10_normalizer_total (x y : RustF64) :
    (I32_MIN ≤ (f64_to_i32_coordinates x y).1 ∧ (f64_to_i32_coordinates x y).1 ≤ I32_MAX ∧
      I32_MIN ≤ (f64_to_i32_coordinates x y).2 ∧ (f64_to_i32_coordinates x y).2 ≤ I32_MAX) ∧
    (x = .nan → (f64_to_i32_coordinates x y).1 = 0) ∧
    (y = .nan → (f64_to_i32_coordinates x y).2 = 0) ∧
    (x = .inf true → (f64_to_i32_coordinates x y).1 = I32_MAX) ∧
    (x = .inf false → (f64_to_i32_coordinates x y).1 = I32_MIN) ∧
    (∀ q, x = .finite q → I32_MAX < roundAway (q * 1000000) →
      (f64_to_i32_coordinates x y).1 = I32_MAX) ∧
    (∀ q, x = .finite q → roundAway (q * 1000000) < I32_MIN →
      (f64_to_i32_coordinates x y).1 = I32_MIN) ∧
    (∀ q, y = .finite q → I32_MAX < roundAway (q * 1000000) →
      (f64_to_i32_coordinates x y).2 = I32_MAX) ∧
    (∀ q, y = .finite q → roundAway (q * 1000000) < I32_MIN →
      (f64_to_i32_coordinates x y).2 = I32_MIN) := by
  obtain ⟨a1, a2⟩ := asI32_range (rustRound (mulMillion x))
  obtain ⟨b1, b2⟩ := asI32_range (rustRound (mulMillion y))
  refine ⟨⟨a1, a2, b1, b2⟩, ?_, ?_, ?_, ?_, ?_, ?_, ?_, ?_⟩
  · rintro rfl
    rfl
  · rintro rfl
    rfl
  · rintro rfl
    rfl
  · rintro rfl
    rfl
  · rintro q rfl hgt
    show max I32_MIN (min I32_MAX (ratTrunc ((roundAway (q * 1000000) : ℤ) : ℚ))) = I32_MAX
    rw [ratTrunc_intCast, min_eq_left (le_of_lt hgt), max_eq_right (by decide)]
  · rintro q rfl hlt
    show max I32_MIN (min I32_MAX (ratTrunc ((roundAway (q * 1000000) : ℤ) : ℚ))) = I32_MIN
    rw [ratTrunc_intCast, min_eq_right (le_trans (le_of_lt hlt) (by decide)),
      max_eq_left (le_of_lt hlt)]
  · rintro q rfl hgt
    show max I32_MIN (min I32_MAX (ratTrunc ((roundAway (q * 1000000) : ℤ) : ℚ))) = I32_MAX
    rw [ratTrunc_intCast, min_eq_left (le_of_lt hgt), max_eq_right (by decide)]
  · rintro q rfl hlt
    show max I32_MIN (min I32_MAX (ratTrunc ((roundAway (q * 1000000) : ℤ) : ℚ))) = I32_MIN
    rw [ratTrunc_intCast, min_eq_right (le_trans (le_of_lt hlt) (by decide)),
      max_eq_left (le_of_lt hlt)]

/-- Witness for C10: a NaN latitude with an enormous longitude. -/
theorem C10_normalizer_total_witness :
    (f64_to_i32_coordinates .nan (.finite 10000000000)).1 = 0 ∧
    (f64_to_i32_coordinates .nan (.finite 10000000000)).2 = I32_MAX :=
  ⟨(C10_normalizer_total _ _).2.1 rfl,
    (C10_normalizer_total _ _).2.2.2.2.2.2.2.1 10000000000 rfl
      (by rw [roundAway_eq]; norm_num [I32_MAX])⟩

/-- C8 as stated is false at the total-failure input: with all three adapters
failing, the resolver does fall back from GPS (the WiFi adapter is invoked)
yet prints no informational fallback message at all. -/
theorem C8_counterexample :
    (get_location (.error "g") (.error "w") (.error "i")).wifiCalled = true ∧
    (get_location (.error "g") (.error "w") (.error "i")).fallbackMessages = 0 :=
  ⟨rfl, rfl⟩

/-- C8 amended: exactly one informational fallback message is printed when GPS
fails and a later adapter (WiFi or IP) succeeds, and none otherwise — in
particular none when GPS succeeds and none in the total-failure case — and the
WiFi-to-IP fallback never adds a second message. -/
theorem C8_amended_messages (gps wifi ip : Except String (RustF64 × RustF64)) :
    (get_location gps wifi ip).fallbackMessages
      = (if exceptOk gps then 0 else if exceptOk wifi then 1
         else if exceptOk ip then 1 else 0) ∧
    (get_location gps wifi ip).fallbackMessages ≤ 1 := by
  rcases gps with e1 | ⟨la1, lo1⟩ <;> rcases wifi with e2 | ⟨la2, lo2⟩ <;>
    rcases ip with e3 | ⟨la3, lo3⟩ <;>
    exact ⟨rfl, by first | exact Nat.le_refl 1 | exact Nat.zero_le 1⟩

/-- C4 as stated is false at its own example line: the last token "-45" parses
to -45 and is negated, so the access point has signalStrength 45, not -45. -/
theorem C4_counterexample :
    parseWifiLine "MyNet:AA\\:BB\\:CC\\:DD\\:EE\\:FF:-45"
      = some ⟨"AA:BB:CC:DD:EE:FF", 45⟩ ∧ (45 : ℤ) ≠ -45 :=
  ⟨by decide, by decide⟩

/-- C4 amended: a line with at least 3 colon-delimited tokens yields an access
point whose macAddress is tokens 1 through last-1 rejoined with ":", with every
backslash-colon collapsed to a plain colon and the result uppercased, and whose
signalStrength is the negation of the last token parsed as i32 (0 if
unparsable); shorter lines are skipped. The example line whose last token is
"-45" therefore yields signalStrength 45 (not -45), while a raw value of 67
yields -67. -/
theorem C4_amended_wifi_parse (line : String) :
    (3 ≤ (wifiLineParts line).length →
      parseWifiLine line = some ⟨wifiLineMac line, i32Neg (wifiLineSignalRaw line)⟩) ∧
    ((wifiLineParts line).length < 3 → parseWifiLine line = none) ∧
    parseWifiLine "MyNet:AA\\:BB\\:CC\\:DD\\:EE\\:FF:-45"
      = some ⟨"AA:BB:CC:DD:EE:FF", 45⟩ ∧
    parseWifiLine "MyNet:AA\\:BB\\:CC\\:DD\\:EE\\:FF:67"
      = some ⟨"AA:BB:CC:DD:EE:FF", -67⟩ := by
  refine ⟨fun h => ?_, fun h => ?_, by decide, by decide⟩
  · simp only [parseWifiLine]
    rw [if_pos h]
  · simp only [parseWifiLine]
    rw [if_neg (by omega)]

/-- Witness for C4 at a minimal valid line and a skipped line. -/
theorem C4_amended_wifi_parse_witness :
    parseWifiLine "a:b:45" = some ⟨wifiLineMac "a:b:45", i32Neg (wifiLineSignalRaw "a:b:45")⟩ ∧
    parseWifiLine "a:b" = none :=
  ⟨(C4_amended_wifi_parse "a:b:45").1 (by decide),
    (C4_amended_wifi_parse "a:b").2.1 (by decide)⟩

/-- C5: when an API key is configured but no scan line survives the
fewer-than-3-tokens filter, the WiFi adapter fails with the no-access-points
error and no HTTP request is issued. -/
theorem C5_empty_scan (env : String → Option String) (key : String)
    (scanLines : List String) (http : GeoRequest → Except String (RustF64 × RustF64))
    (henv : env "GEO_API" = some key)
    (hempty : scanLines.filterMap parseWifiLine = []) :
    get_geo_location env scanLines http
      = ⟨true, false, none, .error "No Wi-Fi networks found"⟩ := by
  unfold get_geo_location
  rw [henv]
  simp [hempty]

/-- Witness for C5: two lines with fewer than 3 tokens each. -/
theorem C5_empty_scan_witness :
    get_geo_location (fun _ => some "KEY") ["short", "x:y"] (fun _ => .error "down")
      = ⟨true, false, none, .error "No Wi-Fi networks found"⟩ :=
  C5_empty_scan _ "KEY" _ _ rfl (by decide)

/-- C6 as stated is false: a scan line whose last token is a negative number
produces an access point with positive signalStrength. -/
theorem C6_counterexample :
    parseWifiLine "a:b:-1" = some ⟨"B", 1⟩ ∧ (0 : ℤ) < 1 :=
  ⟨by decide, by decide⟩

/-- C6 amended: every access point built from a line whose raw parsed signal
value is nonnegative (as nmcli quality figures are, and as the unparsable
default 0 is) has signalStrength ≤ 0 after the sign inversion; a negative raw
token instead yields a positive signalStrength. -/
theorem C6_amended_signal_nonpos (line : String) (ap : WifiAccessPoint)
    (h : parseWifiLine line = some ap) (hraw : 0 ≤ wifiLineSignalRaw line) :
    ap.signalStrength ≤ 0 := by
  unfold parseWifiLine at h
  split at h
  · obtain rfl := Option.some.inj h
    show i32Neg (wifiLineSignalRaw line) ≤ 0
    unfold i32Neg
    split
    · next heq =>
      rw [heq]
      decide
    · exact neg_nonpos.mpr hraw
  · simp at h

/-- Witness for C6 at a line with a nonnegative raw signal. -/
theorem C6_amended_signal_nonpos_witness :
    (⟨"B", -45⟩ : WifiAccessPoint).signalStrength ≤ 0 :=
  C6_amended_signal_nonpos "a:b:45" ⟨"B", -45⟩ (by decide) (by decide)

/-- C9: when GEO_API is absent from the environment (after the dotenv load),
the WiFi adapter fails immediately with the missing-key error, before the scan
subprocess is invoked and before any HTTP request is issued. -/
theorem C9_missing_key (env : String → Option String) (scanLines : List String)
    (http : GeoRequest → Except String (RustF64 × RustF64))
    (henv : env "GEO_API" = none) :
    get_geo_location env scanLines http
      = ⟨false, false, none, .error "environment variable not found"⟩ := by
  unfold get_geo_location
  rw [henv]

/-- Witness for C9 with an empty environment and a nonempty scan. -/
theorem C9_missing_key_witness :
    get_geo_location (fun _ => none) ["a:b:45"] (fun _ => .error "down")
      = ⟨false, false, none, .error "environment variable not found"⟩ :=
  C9_missing_key _ _ _ rfl

/-- C7: the IP adapter returns a pair exactly when the HTTP status is success,
the body decodes, the loc field is present, splitting loc on "," yields
exactly two parts, and both parts parse as f64; the returned pair consists of
the two parsed values; the adapter is a total function (never panics), and the
comma-free loc "37.7" is rejected with the generic location failure error. -/
theorem C7_ip_adapter (parseF64 : String → Option RustF64) (status : Bool)
    (body : Except String IpLocation) :
    ((∃ p, get_ip_location parseF64 status body = .ok p) ↔
      (status = true ∧ ∃ info s p0 p1, body = .ok info ∧ info.loc = some s ∧
        ipLocParts s = [p0, p1] ∧
        (parseF64 (String.mk p0)).isSome = true ∧
        (parseF64 (String.mk p1)).isSome = true)) ∧
    (∀ la lo, get_ip_location parseF64 status body = .ok (la, lo) →
      ∃ info s p0 p1, body = .ok info ∧ info.loc = some s ∧
        ipLocParts s = [p0, p1] ∧
        parseF64 (String.mk p0) = some la ∧ parseF64 (String.mk p1) = some lo) ∧
    get_ip_location parseF64 true (.ok ⟨some "37.7"⟩)
      = .error "Failed to get location via IP." := by
  refine ⟨?_, ?_, rfl⟩
  · cases status with
    | false => simp [get_ip_location]
    | true =>
      cases body with
      | error e => simp [get_ip_location]
      | ok info =>
        obtain ⟨l⟩ := info
        cases l with
        | none => simp [get_ip_location]
        | some s =>
          rcases hparts : ipLocParts s with _ | ⟨p0, _ | ⟨p1, _ | ⟨p2, rest⟩⟩⟩
          · simp [get_ip_location, hparts]
          · simp [get_ip_location, hparts]
          · rcases hp1 : parseF64 (String.mk p0) with _ | la
            · simp [get_ip_location, hparts, hp1]
            · rcases hp2 : parseF64 (String.mk p1) with _ | lo
              · simp [get_ip_location, hparts, hp1, hp2]
              · simp [get_ip_location, hparts, hp1, hp2]
                exact ⟨p0, p1, ⟨rfl, rfl⟩, by rw [hp1]; rfl, by rw [hp2]; rfl⟩
          · simp [get_ip_location, hparts]
  · intro la lo h
    cases status with
    | false => simp [get_ip_location] at h
    | true =>
      cases body with
      | error e => simp [get_ip_location] at h
      | ok info =>
        obtain ⟨l⟩ := info
        cases l with
        | none => simp [get_ip_location] at h
        | some s =>
          rcases hparts : ipLocParts s with _ | ⟨p0, _ | ⟨p1, _ | ⟨p2, rest⟩⟩⟩
          · simp [get_ip_location, hparts] at h
          · simp [get_ip_location, hparts] at h
          · rcases hp1 : parseF64 (String.mk p0) with _ | la2
            · simp [get_ip_location, hparts, hp1] at h
            · rcases hp2 : parseF64 (String.mk p1) with _ | lo2
              · simp [get_ip_location, hparts, hp1, hp2] at h
              · simp [get_ip_location, hparts, hp1, hp2] at h
                obtain ⟨rfl, rfl⟩ := h
                exact ⟨⟨some s⟩, s, p0, p1, rfl, rfl, hparts, hp1, hp2⟩
          · simp [get_ip_location, hparts] at h

/-- Witness for C7: a success through a loc of "1,2" with a parser that
accepts both parts. -/
theorem C7_ip_adapter_witness :
    ∃ p, get_ip_location sampleParseF64 true (.ok ⟨some "1,2"⟩) = .ok p :=
  ((C7_ip_adapter sampleParseF64 true (.ok ⟨some "1,2"⟩)).1).mpr
    ⟨rfl, ⟨some "1,2"⟩, "1,2", ['1'], ['2'], rfl, rfl, by decide, by decide, by decide⟩

end Geolocator
